import Mathlib

/-!
Verification of the recording-session lifecycle controller of
`src/theway3.py` (class `theway`).

The Python program shells out to the external `adb` tool and sleeps between
steps.  The shallow embedding below models:

* strings as `List Char` (ASCII; Python's Unicode `str.isdigit` nuances are
  out of scope),
* every `subprocess.run` call site as a `CallOutcome` supplied by an
  environment record: either the call returns a completed process
  (`ProcResult` with exit code and captured stdout) or it raises an
  exception (`CallOutcome.exn`, covering `TimeoutExpired` and all other
  exceptions),
* wall-clock time as a natural number of elapsed seconds from the start of
  `continuous_recording`; only `time.sleep`, the intra-segment wait loop and
  the abstract per-segment duration advance it,
* the shared `is_recording` flag, written by `start_recording` and
  `stop_recording` and only read by the background loop, as a function
  `Nat → Bool` giving its value at each elapsed second.

The segment body `simple_record_segment` is modelled at the level of the
`adb` command sequence it issues (its trace), its return value
(`some true` / `some false` / `none`, matching Python's `True` / `False` /
implicit `None`), and the length of its cooperative wait loop.  The outer
loop `continuous_recording` is modelled over an iteration list supplying
each segment's wall-clock duration and truthiness, exactly mirroring the
`while` loop of lines 177-194 of the source.
-/

namespace TheWay

/-- Python whitespace as stripped by `str.strip()` (ASCII subset). -/
def pySpace (c : Char) : Bool :=
  c = ' ' || c = '\t' || c = '\n' || c = '\r' || c = '\x0b' || c = '\x0c'

/-- Python `str.strip()`: drop leading and trailing whitespace. -/
def pyStrip (l : List Char) : List Char :=
  ((l.dropWhile pySpace).reverse.dropWhile pySpace).reverse

/-- Python `needle in hay` substring test on strings. -/
def isSub (needle : List Char) : List Char → Bool
  | [] => needle.isEmpty
  | x :: xs => needle.isPrefixOf (x :: xs) || isSub needle xs

/-- Python `str.split(sep)` for a one-character separator: splits on every
occurrence, keeping empty pieces, and yields one piece more than the number
of separators. -/
def splitOnChar (c : Char) : List Char → List (List Char)
  | [] => [[]]
  | x :: xs =>
    if x = c then [] :: splitOnChar c xs
    else
      match splitOnChar c xs with
      | [] => [[x]]
      | h :: t => (x :: h) :: t

/-- Python `str.isdigit()` (ASCII model): nonempty and all digits. -/
def pyIsdigit (l : List Char) : Bool :=
  !l.isEmpty && l.all Char.isDigit

/-- Python `int(s)` on a string of ASCII digits. -/
def pyInt (l : List Char) : Nat :=
  l.foldl (fun n c => 10 * n + (c.toNat - 48)) 0

/-- Result of a `subprocess.run` call that completed (did not raise):
the process exit code and the captured standard output (empty for call
sites that do not capture output). -/
structure ProcResult where
  returncode : Int
  stdout : List Char
  deriving DecidableEq, Repr

/-- Outcome of one `subprocess.run` call site: the call either completes
with a `ProcResult`, or raises (timeout expired, tool missing, ...). -/
inductive CallOutcome where
  | ok : ProcResult → CallOutcome
  | exn : CallOutcome
  deriving DecidableEq, Repr

/-- The mutable fields of the `theway` instance that the session lifecycle
reads and writes: the `is_recording` flag and the stored phone IP
(`none` models Python `None`). -/
structure RecState where
  is_recording : Bool
  phone_ip : Option (List Char)
  deriving DecidableEq, Repr

/-- The acceptance test of `get_phone_ip` (src line 38), verbatim from the
source: the count of dot characters equals 3, and every dot-separated part
satisfies `part.isdigit() and 0 <= int(part) <= 255`. -/
def valid_ip_input (ip : List Char) : Bool :=
  (ip.count '.' == 3) &&
    (splitOnChar '.' ip).all (fun part =>
      pyIsdigit part && decide (0 ≤ pyInt part) && decide (pyInt part ≤ 255))

/-- `get_phone_ip` (src lines 34-43): reads inputs until one, after
`.strip()`, passes `valid_ip_input`; that stripped input is stored and
returned.  Exhausting the input list models `input()` raising `EOFError`,
in which case nothing is stored (`none`). -/
def get_phone_ip : List (List Char) → Option (List Char)
  | [] => none
  | i :: rest =>
    let ip := pyStrip i
    if valid_ip_input ip then some ip else get_phone_ip rest

/-- The three `subprocess.run` call sites of `setup_wifi_adb_simple`:
`adb devices`, `adb tcpip 5555`, `adb connect ip:5555`. -/
structure SetupEnv where
  devicesCall : CallOutcome
  tcpipCall : CallOutcome
  connectCall : CallOutcome
  deriving DecidableEq, Repr

/-- `setup_wifi_adb_simple` (src lines 45-86).  Returns the boolean result
together with the updated object state (the function may store a freshly
prompted IP).  The whole body sits in `try: ... except: return False`, so a
raising call site or an `EOFError` from `get_phone_ip` yields `false`. -/
def setup_wifi_adb_simple (env : SetupEnv) (inputs : List (List Char))
    (st : RecState) : Bool × RecState :=
  match (match st.phone_ip with
         | none => get_phone_ip inputs
         | some ip => if ip = [] then get_phone_ip inputs else some ip) with
  | none => (false, st)
  | some ip =>
    match env.devicesCall with
    | CallOutcome.exn => (false, { st with phone_ip := some ip })
    | CallOutcome.ok r =>
      if isSub (ip ++ (":5555".toList)) r.stdout && isSub ("device".toList) r.stdout then
        (true, { st with phone_ip := some ip })
      else if (splitOnChar '\n' r.stdout).any
          (fun line => isSub ("device".toList) line && !(isSub ip line)) then
        match env.tcpipCall with
        | CallOutcome.exn => (false, { st with phone_ip := some ip })
        | CallOutcome.ok r2 =>
          if r2.returncode ≠ 0 then (false, { st with phone_ip := some ip })
          else
            match env.connectCall with
            | CallOutcome.exn => (false, { st with phone_ip := some ip })
            | CallOutcome.ok r3 =>
              if isSub ("connected".toList) r3.stdout then
                (true, { st with phone_ip := some ip })
              else (false, { st with phone_ip := some ip })
      else (false, { st with phone_ip := some ip })

/-- `start_recording` (src lines 199-213): runs the setup; on failure
returns `False` without touching `is_recording` and without spawning the
background thread; on success sets `is_recording := true`, spawns the
`continuous_recording` thread, and returns `True`.  Result:
(return value, new state, whether a thread was spawned). -/
def start_recording (env : SetupEnv) (inputs : List (List Char))
    (st : RecState) : Bool × RecState × Bool :=
  match setup_wifi_adb_simple env inputs st with
  | (false, st1) => (false, st1, false)
  | (true, st1) => (true, { st1 with is_recording := true }, true)

/-- `stop_recording` (src lines 215-219): unconditionally sets
`is_recording := false`, then runs `adb shell am force-stop ...` with a
10-second timeout and NO surrounding `try`: a completed call (any exit
code) returns normally (`Except.ok`), a raising call propagates the
exception to the caller (`Except.error`). -/
def stop_recording (o : CallOutcome) (st : RecState) : RecState × Except Unit Unit :=
  let st1 : RecState := { st with is_recording := false }
  match o with
  | CallOutcome.ok _ => (st1, Except.ok ())
  | CallOutcome.exn => (st1, Except.error ())

/-- One command of the interactive loop of `main` (src lines 265-309),
carrying the environment its handler consumes. -/
inductive Command where
  | start : SetupEnv → List (List Char) → Command
  | stop : CallOutcome → Command
  | status : Command
  | listCmd : Command
  | ipCmd : List (List Char) → Command
  | exitCmd : CallOutcome → Command
  | unknown : Command
  deriving Repr

/-- Effect of one interactive command on the object state (src lines
269-309): `start` is guarded by `if not recorder.is_recording`; `stop` and
`exit`/`quit` call `stop_recording`; `ip` calls `get_phone_ip`; `status`,
`list` and unknown commands leave the state unchanged. -/
def mainStep : Command → RecState → RecState
  | Command.start env inputs, st =>
    if st.is_recording = false then (start_recording env inputs st).2.1 else st
  | Command.stop o, st => (stop_recording o st).1
  | Command.exitCmd o, st => (stop_recording o st).1
  | Command.status, st => st
  | Command.listCmd, st => st
  | Command.ipCmd inputs, st =>
    match get_phone_ip inputs with
    | some ip => { st with phone_ip := some ip }
    | none => st
  | Command.unknown, st => st

/-- One `adb` command of the segment body, in source order. -/
inductive Cmd where
  | launch
  | keyStart
  | keyStop
  | back
  | lsMedia
  | pullFile
  | rmFile
  deriving DecidableEq, Repr

/-- The `subprocess.run` call sites of `simple_record_segment`, in source
order: launch camera, start keyevent, stop keyevent, two back keyevents,
`ls` of the media directory (captured), `pull` (captured), `rm`. -/
structure SegEnv where
  launchCamera : CallOutcome
  startKey : CallOutcome
  stopKey : CallOutcome
  backKey1 : CallOutcome
  backKey2 : CallOutcome
  lsMedia : CallOutcome
  pullFile : CallOutcome
  rmFile : CallOutcome
  deriving DecidableEq, Repr

/-- Result of the `try` body of `simple_record_segment`: the value it
returns (`Except.error` when a call site raised; `Except.ok none` models
Python falling off the end and returning `None`), the `adb` commands issued
so far (a raising call counts as issued), and the number of completed
iterations of the intra-segment wait loop. -/
structure SegOut where
  ret : Except Unit (Option Bool)
  trace : List Cmd
  waitLen : Nat
  deriving Repr

/-- Number of completed iterations of the wait loop
`for i in range(1740): if not self.is_recording: break; time.sleep(1)`
(src lines 119-125), given the flag value at each check. -/
def waitLoopLen (flagW : Nat → Bool) : Nat :=
  ((List.range 1740).takeWhile flagW).length

/-- The `try` body of `simple_record_segment` (src lines 100-163), driven
by the outcome of each call site and the `is_recording` value at each
second of the wait loop.  Mirrors the source line by line: launch camera,
start-trigger keyevent, bounded wait polling the flag, stop-trigger
keyevent, two back keyevents, list remote media files, and if the captured
listing is nonempty after stripping, pull the last file and delete it
remotely only when the pull exited with code 0. -/
def segRun (env : SegEnv) (flagW : Nat → Bool) : SegOut :=
  match env.launchCamera with
  | CallOutcome.exn => ⟨Except.error (), [Cmd.launch], 0⟩
  | CallOutcome.ok _ =>
    match env.startKey with
    | CallOutcome.exn => ⟨Except.error (), [Cmd.launch, Cmd.keyStart], 0⟩
    | CallOutcome.ok _ =>
      match env.stopKey with
      | CallOutcome.exn =>
        ⟨Except.error (), [Cmd.launch, Cmd.keyStart, Cmd.keyStop], waitLoopLen flagW⟩
      | CallOutcome.ok _ =>
        match env.backKey1 with
        | CallOutcome.exn =>
          ⟨Except.error (), [Cmd.launch, Cmd.keyStart, Cmd.keyStop, Cmd.back],
            waitLoopLen flagW⟩
        | CallOutcome.ok _ =>
          match env.backKey2 with
          | CallOutcome.exn =>
            ⟨Except.error (), [Cmd.launch, Cmd.keyStart, Cmd.keyStop, Cmd.back, Cmd.back],
              waitLoopLen flagW⟩
          | CallOutcome.ok _ =>
            match env.lsMedia with
            | CallOutcome.exn =>
              ⟨Except.error (),
                [Cmd.launch, Cmd.keyStart, Cmd.keyStop, Cmd.back, Cmd.back, Cmd.lsMedia],
                waitLoopLen flagW⟩
            | CallOutcome.ok lsRes =>
              if lsRes.stdout ≠ [] ∧ pyStrip lsRes.stdout ≠ [] then
                if ((splitOnChar '\n' lsRes.stdout).map pyStrip).filter
                    (fun f => f ≠ []) ≠ [] then
                  match env.pullFile with
                  | CallOutcome.exn =>
                    ⟨Except.error (),
                      [Cmd.launch, Cmd.keyStart, Cmd.keyStop, Cmd.back, Cmd.back,
                        Cmd.lsMedia, Cmd.pullFile], waitLoopLen flagW⟩
                  | CallOutcome.ok pr =>
                    if pr.returncode = 0 then
                      match env.rmFile with
                      | CallOutcome.exn =>
                        ⟨Except.error (),
                          [Cmd.launch, Cmd.keyStart, Cmd.keyStop, Cmd.back, Cmd.back,
                            Cmd.lsMedia, Cmd.pullFile, Cmd.rmFile], waitLoopLen flagW⟩
                      | CallOutcome.ok _ =>
                        ⟨Except.ok (some true),
                          [Cmd.launch, Cmd.keyStart, Cmd.keyStop, Cmd.back, Cmd.back,
                            Cmd.lsMedia, Cmd.pullFile, Cmd.rmFile], waitLoopLen flagW⟩
                    else
                      ⟨Except.ok (some false),
                        [Cmd.launch, Cmd.keyStart, Cmd.keyStop, Cmd.back, Cmd.back,
                          Cmd.lsMedia, Cmd.pullFile], waitLoopLen flagW⟩
                else
                  ⟨Except.ok none,
                    [Cmd.launch, Cmd.keyStart, Cmd.keyStop, Cmd.back, Cmd.back, Cmd.lsMedia],
                    waitLoopLen flagW⟩
              else
                ⟨Except.ok (some false),
                  [Cmd.launch, Cmd.keyStart, Cmd.keyStop, Cmd.back, Cmd.back, Cmd.lsMedia],
                  waitLoopLen flagW⟩

/-- `simple_record_segment` (src lines 99-167): the `try` body wrapped in
`except Exception: return False`.  Python's possible returns `True`,
`False`, `None` become `some true`, `some false`, `none`. -/
def simple_record_segment (env : SegEnv) (flagW : Nat → Bool) : Option Bool :=
  match (segRun env flagW).ret with
  | Except.ok v => v
  | Except.error _ => some false

/-- Python truthiness of a `simple_record_segment` return value, as tested
by `if self.simple_record_segment():` (src line 185). -/
def truthy : Option Bool → Bool
  | some b => b
  | none => false

/-- One iteration of the session loop as seen from `continuous_recording`:
the wall-clock seconds the `simple_record_segment()` call consumed and the
truthiness of its return value. -/
structure LoopIter where
  segDuration : Nat
  segResult : Bool
  deriving DecidableEq, Repr

/-- The loop-local state of `continuous_recording`: seconds elapsed since
`start_time` and the two counters. -/
structure LoopState where
  t : Nat
  segment_count : Nat
  successful_recordings : Nat
  deriving DecidableEq, Repr

/-- `continuous_recording` (src lines 169-197):
`while self.is_recording and (time.time() - start_time) < 36000:` run one
segment, count it, count success on a truthy return, then
`if self.is_recording: time.sleep(5)` before re-checking the condition.
`flagAt` gives the shared `is_recording` value at each elapsed second; the
iteration list supplies each segment call's duration and truthiness (the
loop exits unchanged when the list is exhausted).  The loop body never
writes `is_recording`. -/
def continuous_recording (flagAt : Nat → Bool) :
    List LoopIter → LoopState → LoopState
  | [], s => s
  | it :: rest, s =>
    if flagAt s.t = true ∧ s.t < 36000 then
      if flagAt (s.t + it.segDuration) = true then
        continuous_recording flagAt rest
          ⟨s.t + it.segDuration + 5, s.segment_count + 1,
            s.successful_recordings + (if it.segResult then 1 else 0)⟩
      else
        continuous_recording flagAt rest
          ⟨s.t + it.segDuration, s.segment_count + 1,
            s.successful_recordings + (if it.segResult then 1 else 0)⟩
    else s

/-! ### Helper lemmas -/

theorem splitOnChar_ne_nil (c : Char) (l : List Char) : splitOnChar c l ≠ [] := by
  induction l with
  | nil => simp [splitOnChar]
  | cons x xs ih =>
    simp only [splitOnChar]
    split
    · simp
    · split <;> simp

theorem length_splitOnChar (c : Char) (l : List Char) :
    (splitOnChar c l).length = l.count c + 1 := by
  induction l with
  | nil => simp [splitOnChar]
  | cons x xs ih =>
    by_cases hx : x = c
    · have hbeq : (x == c) = true := by simp [hx]
      simp only [splitOnChar, if_pos hx, List.length_cons, List.count_cons, hbeq]
      simp [ih]
    · cases h : splitOnChar c xs with
      | nil => exact absurd h (splitOnChar_ne_nil c xs)
      | cons hd tl =>
        have hbeq : (x == c) = false := by simp [hx]
        have ih2 := ih
        rw [h] at ih2
        simp only [List.length_cons] at ih2
        simp only [splitOnChar, if_neg hx, h, List.length_cons, List.count_cons, hbeq]
        simp
        omega

/-- The loop of `continuous_recording` never decreases the segment counter. -/
theorem continuous_recording_count_mono (flagAt : Nat → Bool)
    (iters : List LoopIter) (s : LoopState) :
    s.segment_count ≤ (continuous_recording flagAt iters s).segment_count := by
  induction iters generalizing s with
  | nil => exact Nat.le_refl _
  | cons it rest ih =>
    simp only [continuous_recording]
    split
    · split
      · exact Nat.le_trans (Nat.le_succ _)
          (ih ⟨s.t + it.segDuration + 5, s.segment_count + 1,
            s.successful_recordings + (if it.segResult then 1 else 0)⟩)
      · exact Nat.le_trans (Nat.le_succ _)
          (ih ⟨s.t + it.segDuration, s.segment_count + 1,
            s.successful_recordings + (if it.segResult then 1 else 0)⟩)
    · exact Nat.le_refl _

/-! ### Claim C1 -/

/-- Claim C1, as stated, is false on the code: the ten-hour ceiling is
checked only at the top of the `while` loop, so a segment that starts just
before 36000 seconds runs past the ceiling.  Concretely: with the flag
never cleared and every segment failing after a full 1756-second cycle
(5+3+1740+5+3 seconds of sleeps and wait), the 21st segment starts at
35220 seconds and the session ends at 36981 seconds, beyond the 36000
second maximum. -/
theorem claim_C1_counterexample :
    36000 <
      (continuous_recording (fun _ => true)
        (List.replicate 22 ⟨1756, false⟩) ⟨0, 0, 0⟩).t := by
  decide

/-- Claim C1 (amended): the loop never starts a segment once 36000 seconds
have elapsed, so if every `simple_record_segment` call takes at most `D`
seconds, the total elapsed time at loop exit stays below 36000 + D + 5
seconds (one in-flight segment plus the 5-second inter-segment pause can
run past the ceiling, but no more). -/
theorem claim_C1_duration_bound (flagAt : Nat → Bool) (iters : List LoopIter)
    (s : LoopState) (D : Nat) (hD : ∀ it ∈ iters, it.segDuration ≤ D)
    (hs : s.t < 36000 + D + 5) :
    (continuous_recording flagAt iters s).t < 36000 + D + 5 := by
  induction iters generalizing s with
  | nil => exact hs
  | cons it rest ih =>
    have hd : it.segDuration ≤ D := hD it (List.mem_cons_self _ _)
    have hrest : ∀ x ∈ rest, x.segDuration ≤ D :=
      fun x hx => hD x (List.mem_cons_of_mem _ hx)
    simp only [continuous_recording]
    split
    · rename_i hcond
      have ht : s.t < 36000 := hcond.2
      split
      · refine ih _ hrest ?_
        show s.t + it.segDuration + 5 < 36000 + D + 5
        omega
      · refine ih _ hrest ?_
        show s.t + it.segDuration < 36000 + D + 5
        omega
    · exact hs

/-- Witness for the amended claim C1 at a concrete run: three full
1756-second segments stay below the 36000 + 1756 + 5 bound. -/
theorem claim_C1_duration_bound_witness :
    (continuous_recording (fun _ => true)
      (List.replicate 3 ⟨1756, true⟩) ⟨0, 0, 0⟩).t < 36000 + 1756 + 5 :=
  claim_C1_duration_bound (fun _ => true) (List.replicate 3 ⟨1756, true⟩)
    ⟨0, 0, 0⟩ 1756 (by decide) (by decide)

/-! ### Claim C2 -/

/-- Claim C2, as stated, is false on the code: `continuous_recording` never
writes `is_recording`, so when the loop exits because the ten-hour ceiling
was reached the flag is still true.  In the run below the flag function is
identically true; the loop exits through its `while` condition (only 21 of
the 22 supplied iterations are consumed) with more than 36000 seconds
elapsed, and the flag at that moment is still true, not false. -/
theorem claim_C2_counterexample :
    (continuous_recording (fun _ => true)
        (List.replicate 22 ⟨1756, false⟩) ⟨0, 0, 0⟩).segment_count < 22 ∧
    36000 ≤ (continuous_recording (fun _ => true)
        (List.replicate 22 ⟨1756, false⟩) ⟨0, 0, 0⟩).t ∧
    (fun _ => true) ((continuous_recording (fun _ => true)
        (List.replicate 22 ⟨1756, false⟩) ⟨0, 0, 0⟩).t) = true := by
  refine ⟨by decide, by decide, rfl⟩

/-- Claim C2 (amended): the loop itself never modifies `is_recording`, so
the flag is false after the loop exits only in the stopped case: whenever
the loop exits through its condition (not by exhausting the supplied
iteration list) before the 36000-second ceiling, the flag was false at the
exit check; an exit at the ceiling leaves the flag untouched (and hence
still true until an explicit `stop_recording`). -/
theorem claim_C2_flag_false_on_early_exit (flagAt : Nat → Bool)
    (iters : List LoopIter) (s : LoopState)
    (hconsumed : (continuous_recording flagAt iters s).segment_count -
      s.segment_count < iters.length)
    (ht : (continuous_recording flagAt iters s).t < 36000) :
    flagAt ((continuous_recording flagAt iters s).t) = false := by
  induction iters generalizing s with
  | nil => simp at hconsumed
  | cons it rest ih =>
    simp only [continuous_recording] at hconsumed ht ⊢
    by_cases hc : flagAt s.t = true ∧ s.t < 36000
    · rw [if_pos hc] at hconsumed ht ⊢
      by_cases hp : flagAt (s.t + it.segDuration) = true
      · rw [if_pos hp] at hconsumed ht ⊢
        refine ih _ ?_ ht
        have hXc : (⟨s.t + it.segDuration + 5, s.segment_count + 1,
            s.successful_recordings +
              (if it.segResult then 1 else 0)⟩ : LoopState).segment_count =
            s.segment_count + 1 := rfl
        have hmono := continuous_recording_count_mono flagAt rest
          ⟨s.t + it.segDuration + 5, s.segment_count + 1,
            s.successful_recordings + (if it.segResult then 1 else 0)⟩
        simp only [List.length_cons] at hconsumed
        omega
      · rw [if_neg hp] at hconsumed ht ⊢
        refine ih _ ?_ ht
        have hXc : (⟨s.t + it.segDuration, s.segment_count + 1,
            s.successful_recordings +
              (if it.segResult then 1 else 0)⟩ : LoopState).segment_count =
            s.segment_count + 1 := rfl
        have hmono := continuous_recording_count_mono flagAt rest
          ⟨s.t + it.segDuration, s.segment_count + 1,
            s.successful_recordings + (if it.segResult then 1 else 0)⟩
        simp only [List.length_cons] at hconsumed
        omega
    · rw [if_neg hc] at hconsumed ht ⊢
      cases hval : flagAt s.t with
      | false => rfl
      | true => exact absurd ⟨hval, ht⟩ hc

/-- Witness for the amended claim C2: the flag is cleared at second 10; the
single-segment run exits at 1756 seconds with the flag indeed false there. -/
theorem claim_C2_flag_false_on_early_exit_witness :
    (fun t => decide (t < 10))
      ((continuous_recording (fun t => decide (t < 10))
        [⟨1756, false⟩, ⟨1, false⟩] ⟨0, 0, 0⟩).t) = false :=
  claim_C2_flag_false_on_early_exit (fun t => decide (t < 10))
    [⟨1756, false⟩, ⟨1, false⟩] ⟨0, 0, 0⟩ (by decide) (by decide)

/-! ### Claim C3 -/

/-- Claim C3: at every point of the session loop the success counter is at
most the segment counter.  Each iteration adds exactly one to
`segment_count` and at most one to `successful_recordings`, so the
invariant `successful_recordings ≤ segment_count` is preserved from any
state that satisfies it (in particular from the initial zeros, and along
every prefix of the iteration sequence, i.e. after every iteration). -/
theorem claim_C3_success_le_segments (flagAt : Nat → Bool)
    (iters : List LoopIter) (s : LoopState)
    (h : s.successful_recordings ≤ s.segment_count) :
    (continuous_recording flagAt iters s).successful_recordings ≤
      (continuous_recording flagAt iters s).segment_count := by
  induction iters generalizing s with
  | nil => exact h
  | cons it rest ih =>
    simp only [continuous_recording]
    split
    · split
      · apply ih
        show s.successful_recordings + (if it.segResult then 1 else 0) ≤
          s.segment_count + 1
        cases it.segResult <;> simp <;> omega
      · apply ih
        show s.successful_recordings + (if it.segResult then 1 else 0) ≤
          s.segment_count + 1
        cases it.segResult <;> simp <;> omega
    · exact h

/-- Witness for claim C3 on a concrete mixed run of one success and one
failure starting from the zero counters. -/
theorem claim_C3_success_le_segments_witness :
    (continuous_recording (fun _ => true) [⟨1756, true⟩, ⟨1756, false⟩]
      ⟨0, 0, 0⟩).successful_recordings ≤
    (continuous_recording (fun _ => true) [⟨1756, true⟩, ⟨1756, false⟩]
      ⟨0, 0, 0⟩).segment_count :=
  claim_C3_success_le_segments (fun _ => true) [⟨1756, true⟩, ⟨1756, false⟩]
    ⟨0, 0, 0⟩ (by decide)

/-! ### Claim C4 -/

/-- `setup_wifi_adb_simple` only ever writes `phone_ip`; it never touches
the `is_recording` flag. -/
theorem setup_preserves_is_recording (env : SetupEnv)
    (inputs : List (List Char)) (st : RecState) :
    ((setup_wifi_adb_simple env inputs st).2).is_recording = st.is_recording := by
  unfold setup_wifi_adb_simple
  repeat' split
  all_goals rfl

/-- Claim C4: when the connection setup fails, `start_recording` returns
`False`, the `is_recording` flag keeps its previous value (it is never set
to true), and no background thread is spawned (third component `false`). -/
theorem claim_C4_setup_failure_blocks_session (env : SetupEnv)
    (inputs : List (List Char)) (st : RecState)
    (h : (setup_wifi_adb_simple env inputs st).1 = false) :
    start_recording env inputs st =
      (false, (setup_wifi_adb_simple env inputs st).2, false) ∧
    ((setup_wifi_adb_simple env inputs st).2).is_recording = st.is_recording := by
  refine ⟨?_, setup_preserves_is_recording env inputs st⟩
  unfold start_recording
  rcases hs : setup_wifi_adb_simple env inputs st with ⟨b, st1⟩
  rw [hs] at h
  cases b
  · simp
  · simp at h

/-- Witness for claim C4: a device bridge whose every call raises (and no
pending input, so the IP prompt hits end-of-input) makes the setup fail;
`start_recording` then returns `False`, leaves the flag false, and spawns
no thread. -/
theorem claim_C4_setup_failure_blocks_session_witness :
    start_recording ⟨CallOutcome.exn, CallOutcome.exn, CallOutcome.exn⟩ []
        ⟨false, none⟩ =
      (false,
        (setup_wifi_adb_simple ⟨CallOutcome.exn, CallOutcome.exn, CallOutcome.exn⟩
          [] ⟨false, none⟩).2, false) ∧
    ((setup_wifi_adb_simple ⟨CallOutcome.exn, CallOutcome.exn, CallOutcome.exn⟩
        [] ⟨false, none⟩).2).is_recording = (⟨false, none⟩ : RecState).is_recording :=
  claim_C4_setup_failure_blocks_session
    ⟨CallOutcome.exn, CallOutcome.exn, CallOutcome.exn⟩ [] ⟨false, none⟩ rfl

/-! ### Claim C5 -/

/-- Claim C5, as stated, is false on the code: `stop_recording` has no
`try` around its `subprocess.run` call, so a timeout (or any other raised
exception) in the force-stop command propagates to the caller instead of
being swallowed.  Concretely, with a raising force-stop call the function
raises. -/
theorem claim_C5_counterexample :
    (stop_recording CallOutcome.exn ⟨true, none⟩).2 = Except.error () := rfl

/-- Claim C5 (amended): `stop_recording` always sets `is_recording` to
false first (even when the subsequent command raises) and changes nothing
else; a force-stop command that merely fails (completes with any exit
code) does not propagate an error, but one that raises (e.g. times out)
does propagate; the state effect is idempotent. -/
theorem claim_C5_stop_clears_flag_timeout_propagates (o : CallOutcome)
    (st : RecState) :
    ((stop_recording o st).1).is_recording = false ∧
    ((stop_recording o st).1).phone_ip = st.phone_ip ∧
    (∀ r, o = CallOutcome.ok r → (stop_recording o st).2 = Except.ok ()) ∧
    (o = CallOutcome.exn → (stop_recording o st).2 = Except.error ()) ∧
    (stop_recording o ((stop_recording o st).1)).1 = (stop_recording o st).1 := by
  cases o <;> simp [stop_recording]

/-- Witness for the amended claim C5: on a completed force-stop call the
flag is cleared and no error propagates. -/
theorem claim_C5_stop_clears_flag_witness :
    ((stop_recording (CallOutcome.ok ⟨0, []⟩) ⟨true, none⟩).1).is_recording = false ∧
    (stop_recording (CallOutcome.ok ⟨0, []⟩) ⟨true, none⟩).2 = Except.ok () :=
  ⟨(claim_C5_stop_clears_flag_timeout_propagates (CallOutcome.ok ⟨0, []⟩)
      ⟨true, none⟩).1,
    (claim_C5_stop_clears_flag_timeout_propagates (CallOutcome.ok ⟨0, []⟩)
      ⟨true, none⟩).2.2.1 ⟨0, []⟩ rfl⟩

/-! ### Claim C8 -/

/-- Claim C8: across every interactive command, the `is_recording` flag
goes from false to true only through a `start` command whose
`setup_wifi_adb_simple` call returned success; `stop`, `exit`, `status`,
`list`, `ip` and unknown commands never set the flag. -/
theorem claim_C8_flag_set_only_by_successful_start (cmd : Command)
    (st : RecState) (hoff : st.is_recording = false)
    (hon : (mainStep cmd st).is_recording = true) :
    ∃ env inputs, cmd = Command.start env inputs ∧
      (setup_wifi_adb_simple env inputs st).1 = true := by
  cases cmd with
  | start env inputs =>
    refine ⟨env, inputs, rfl, ?_⟩
    by_cases hsu : (setup_wifi_adb_simple env inputs st).1 = true
    · exact hsu
    · exfalso
      simp only [mainStep, hoff, if_pos] at hon
      have hpres := setup_preserves_is_recording env inputs st
      unfold start_recording at hon
      rcases hs : setup_wifi_adb_simple env inputs st with ⟨b, st1⟩
      rw [hs] at hon hsu hpres
      cases b
      · simp only at hon hpres
        rw [hpres, hoff] at hon
        exact Bool.false_ne_true hon
      · simp at hsu
  | stop o => cases o <;> simp [mainStep, stop_recording] at hon
  | exitCmd o => cases o <;> simp [mainStep, stop_recording] at hon
  | status => simp [mainStep, hoff] at hon
  | listCmd => simp [mainStep, hoff] at hon
  | ipCmd inputs =>
    simp only [mainStep] at hon
    cases hg : get_phone_ip inputs with
    | none => rw [hg] at hon; simp [hoff] at hon
    | some ip => rw [hg] at hon; simp [hoff] at hon
  | unknown => simp [mainStep, hoff] at hon

/-- Witness for claim C8: a `start` command against a bridge that reports
the phone already connected over WiFi turns the flag on, and indeed the
setup call reports success. -/
theorem claim_C8_flag_set_only_by_successful_start_witness :
    ∃ env inputs,
      Command.start
          ⟨CallOutcome.ok ⟨0, "1.2.3.4:5555 device".toList⟩,
            CallOutcome.exn, CallOutcome.exn⟩ ([] : List (List Char)) =
        Command.start env inputs ∧
      (setup_wifi_adb_simple env inputs
        ⟨false, some ("1.2.3.4".toList)⟩).1 = true :=
  claim_C8_flag_set_only_by_successful_start
    (Command.start
      ⟨CallOutcome.ok ⟨0, "1.2.3.4:5555 device".toList⟩,
        CallOutcome.exn, CallOutcome.exn⟩ [])
    ⟨false, some ("1.2.3.4".toList)⟩ rfl (by decide)

/-! ### Claim C9 -/

/-- Any string accepted by the source's IP test is a dotted quad: four
dot-separated parts, each a nonempty digit string of value at most 255. -/
theorem valid_ip_parts (ip : List Char) (h : valid_ip_input ip = true) :
    (splitOnChar '.' ip).length = 4 ∧
    ∀ p ∈ splitOnChar '.' ip, p ≠ [] ∧ p.all Char.isDigit = true ∧ pyInt p ≤ 255 := by
  unfold valid_ip_input at h
  rw [Bool.and_eq_true] at h
  obtain ⟨hcount, hall⟩ := h
  constructor
  · rw [length_splitOnChar]
    have h3 : ip.count '.' = 3 := by simpa using hcount
    omega
  · intro p hp
    rw [List.all_eq_true] at hall
    have hpart := hall p hp
    rw [Bool.and_eq_true, Bool.and_eq_true] at hpart
    obtain ⟨⟨hdig, _⟩, h255⟩ := hpart
    unfold pyIsdigit at hdig
    rw [Bool.and_eq_true] at hdig
    obtain ⟨hne, hdigits⟩ := hdig
    refine ⟨?_, hdigits, of_decide_eq_true h255⟩
    cases p with
    | nil => simp at hne
    | cons a as => simp

/-- Claim C9: whenever `get_phone_ip` completes and stores an address, that
address splits on dots into exactly four parts, each a nonempty string of
decimal digits whose value is at most 255; and an input failing the test is
never stored — the prompt just moves on to the next input. -/
theorem claim_C9_stored_ip_is_dotted_quad (inputs : List (List Char))
    (ip : List Char) (i : List Char) (rest : List (List Char)) :
    (get_phone_ip inputs = some ip →
      (splitOnChar '.' ip).length = 4 ∧
      ∀ p ∈ splitOnChar '.' ip,
        p ≠ [] ∧ p.all Char.isDigit = true ∧ pyInt p ≤ 255) ∧
    (valid_ip_input (pyStrip i) = false →
      get_phone_ip (i :: rest) = get_phone_ip rest) := by
  constructor
  · intro hsome
    induction inputs with
    | nil => simp [get_phone_ip] at hsome
    | cons j js ihj =>
      simp only [get_phone_ip] at hsome
      by_cases hv : valid_ip_input (pyStrip j) = true
      · rw [if_pos hv] at hsome
        have hj : pyStrip j = ip := by simpa using hsome
        subst hj
        exact valid_ip_parts _ hv
      · rw [if_neg hv] at hsome
        exact ihj hsome
  · intro hbad
    simp only [get_phone_ip]
    rw [if_neg (by simp [hbad])]

/-- Witness for claim C9: the padded input resolves to `10.0.0.7`, which
the theorem certifies as a dotted quad; and the out-of-range input
`999.1.2.3` is skipped. -/
theorem claim_C9_stored_ip_is_dotted_quad_witness :
    ((splitOnChar '.' ("10.0.0.7".toList)).length = 4 ∧
      ∀ p ∈ splitOnChar '.' ("10.0.0.7".toList),
        p ≠ [] ∧ p.all Char.isDigit = true ∧ pyInt p ≤ 255) ∧
    get_phone_ip ("999.1.2.3".toList :: ["10.0.0.7".toList]) =
      get_phone_ip ["10.0.0.7".toList] :=
  ⟨(claim_C9_stored_ip_is_dotted_quad [" 10.0.0.7 ".toList] ("10.0.0.7".toList)
      ("999.1.2.3".toList) ["10.0.0.7".toList]).1 (by decide),
    (claim_C9_stored_ip_is_dotted_quad [" 10.0.0.7 ".toList] ("10.0.0.7".toList)
      ("999.1.2.3".toList) ["10.0.0.7".toList]).2 (by decide)⟩

/-! ### Claim C6 -/

/-- Claim C6: no single-segment failure aborts the session.  First, every
exception raised inside the `try` body of `simple_record_segment` is caught
and converted to the return value `False`, never propagated.  Second, when
the segment call is falsy, the loop merely skips the success increment and
— provided the flag is still set and the ceiling not reached — proceeds to
the next segment after counting the failed one and pausing 5 seconds. -/
theorem claim_C6_segment_failure_not_fatal (env : SegEnv) (flagW : Nat → Bool)
    (flagAt : Nat → Bool) (it : LoopIter) (rest : List LoopIter)
    (s : LoopState) :
    ((∃ e, (segRun env flagW).ret = Except.error e) →
      simple_record_segment env flagW = some false) ∧
    (truthy (simple_record_segment env flagW) = false →
      it.segResult = truthy (simple_record_segment env flagW) →
      flagAt s.t = true → s.t < 36000 →
      flagAt (s.t + it.segDuration) = true →
      continuous_recording flagAt (it :: rest) s =
        continuous_recording flagAt rest
          ⟨s.t + it.segDuration + 5, s.segment_count + 1,
            s.successful_recordings⟩) := by
  constructor
  · rintro ⟨e, he⟩
    unfold simple_record_segment
    rw [he]
  · intro hfail hres hflag ht hflag2
    have hb : it.segResult = false := by rw [hres, hfail]
    simp only [continuous_recording]
    rw [if_pos ⟨hflag, ht⟩, if_pos hflag2, hb]
    simp

/-- Witness for claim C6: a bridge whose camera-launch call raises gives a
`False` segment (no exception escapes), and the loop steps over such a
failed 1756-second segment to the next iteration. -/
theorem claim_C6_segment_failure_not_fatal_witness :
    simple_record_segment
        ⟨CallOutcome.exn, CallOutcome.exn, CallOutcome.exn, CallOutcome.exn,
          CallOutcome.exn, CallOutcome.exn, CallOutcome.exn, CallOutcome.exn⟩
        (fun _ => true) = some false ∧
    continuous_recording (fun _ => true) [⟨1756, false⟩] ⟨0, 0, 0⟩ =
      continuous_recording (fun _ => true) [] ⟨0 + 1756 + 5, 0 + 1, 0⟩ :=
  ⟨(claim_C6_segment_failure_not_fatal
      ⟨CallOutcome.exn, CallOutcome.exn, CallOutcome.exn, CallOutcome.exn,
        CallOutcome.exn, CallOutcome.exn, CallOutcome.exn, CallOutcome.exn⟩
      (fun _ => true) (fun _ => true) ⟨1756, false⟩ [] ⟨0, 0, 0⟩).1 ⟨(), rfl⟩,
    (claim_C6_segment_failure_not_fatal
      ⟨CallOutcome.exn, CallOutcome.exn, CallOutcome.exn, CallOutcome.exn,
        CallOutcome.exn, CallOutcome.exn, CallOutcome.exn, CallOutcome.exn⟩
      (fun _ => true) (fun _ => true) ⟨1756, false⟩ [] ⟨0, 0, 0⟩).2
      rfl rfl rfl (by decide) rfl⟩

/-! ### Claim C7 -/

/-- Claim C7: the remote delete command is issued only after a pull that
exited with code 0; and whenever the pull step ran but exited nonzero, the
segment returns `False` and the remote file is not deleted. -/
theorem claim_C7_rm_only_after_successful_pull (env : SegEnv)
    (flagW : Nat → Bool) :
    (Cmd.rmFile ∈ (segRun env flagW).trace →
      ∃ pr, env.pullFile = CallOutcome.ok pr ∧ pr.returncode = 0) ∧
    (∀ pr, env.pullFile = CallOutcome.ok pr → pr.returncode ≠ 0 →
      Cmd.pullFile ∈ (segRun env flagW).trace →
      simple_record_segment env flagW = some false ∧
      Cmd.rmFile ∉ (segRun env flagW).trace) := by
  constructor
  · intro hmem
    unfold segRun at hmem
    repeat' split at hmem
    all_goals simp_all
  · intro pr hpf hrc hmem
    unfold simple_record_segment
    unfold segRun at hmem ⊢
    repeat' split at hmem
    all_goals simp_all

/-- Witness for claim C7: every step up to the pull succeeds, the listing
finds one media file, the pull exits with code 1 — the segment reports
failure and never issues the remote delete. -/
theorem claim_C7_rm_only_after_successful_pull_witness :
    simple_record_segment
        ⟨CallOutcome.ok ⟨0, []⟩, CallOutcome.ok ⟨0, []⟩, CallOutcome.ok ⟨0, []⟩,
          CallOutcome.ok ⟨0, []⟩, CallOutcome.ok ⟨0, []⟩,
          CallOutcome.ok ⟨0, "/sdcard/DCIM/Camera/v1.mp4\n".toList⟩,
          CallOutcome.ok ⟨1, []⟩, CallOutcome.ok ⟨0, []⟩⟩
        (fun _ => true) = some false ∧
    Cmd.rmFile ∉
      (segRun
        ⟨CallOutcome.ok ⟨0, []⟩, CallOutcome.ok ⟨0, []⟩, CallOutcome.ok ⟨0, []⟩,
          CallOutcome.ok ⟨0, []⟩, CallOutcome.ok ⟨0, []⟩,
          CallOutcome.ok ⟨0, "/sdcard/DCIM/Camera/v1.mp4\n".toList⟩,
          CallOutcome.ok ⟨1, []⟩, CallOutcome.ok ⟨0, []⟩⟩
        (fun _ => true)).trace :=
  (claim_C7_rm_only_after_successful_pull
      ⟨CallOutcome.ok ⟨0, []⟩, CallOutcome.ok ⟨0, []⟩, CallOutcome.ok ⟨0, []⟩,
        CallOutcome.ok ⟨0, []⟩, CallOutcome.ok ⟨0, []⟩,
        CallOutcome.ok ⟨0, "/sdcard/DCIM/Camera/v1.mp4\n".toList⟩,
        CallOutcome.ok ⟨1, []⟩, CallOutcome.ok ⟨0, []⟩⟩
      (fun _ => true)).2 ⟨1, []⟩ rfl (by decide) (by decide)

/-! ### Claim C10 -/

/-- Dropping the predicate's first failure point strictly shortens a
`takeWhile`. -/
theorem length_takeWhile_lt_of_mem_false {α : Type} (p : α → Bool)
    (l : List α) (a : α) (ha : a ∈ l) (hpa : p a = false) :
    (l.takeWhile p).length < l.length := by
  induction l with
  | nil => cases ha
  | cons x xs ih =>
    by_cases hx : p x = true
    · have hax : a ∈ xs := by
        rcases List.mem_cons.mp ha with h | h
        · subst h; rw [hx] at hpa; cases hpa
        · exact h
      simp only [List.takeWhile_cons, hx, if_true, List.length_cons]
      exact Nat.succ_lt_succ (ih hax)
    · have hx2 : p x = false := by cases h : p x; rfl; exact absurd h hx
      simp [List.takeWhile_cons, hx2]

/-- If the flag reads false at some second within the 1740-second window,
the wait loop completes strictly fewer than its 1740 iterations. -/
theorem waitLoopLen_lt (flagW : Nat → Bool) (k : Nat) (hk : k < 1740)
    (hf : flagW k = false) : waitLoopLen flagW < 1740 := by
  have h1 := length_takeWhile_lt_of_mem_false flagW (List.range 1740) k
    (List.mem_range.mpr hk) hf
  have h2 : (List.range 1740).length = 1740 := List.length_range 1740
  unfold waitLoopLen
  omega

/-- Claim C10: a stop request observed during the intra-segment wait makes
the wait loop break early (fewer than 1740 completed iterations), yet the
commands issued and the value returned are exactly those of a run in which
the flag was never cleared: the stop-trigger, app-close, listing, pull and
conditional delete steps all still execute — the flag is simply never read
again after the wait loop. -/
theorem claim_C10_stop_mid_wait_still_transfers (env : SegEnv)
    (flagW : Nat → Bool) (k : Nat) (hk : k < 1740) (hf : flagW k = false) :
    (segRun env flagW).waitLen < 1740 ∧
    (segRun env flagW).trace = (segRun env (fun _ => true)).trace ∧
    (segRun env flagW).ret = (segRun env (fun _ => true)).ret := by
  refine ⟨?_, ?_, ?_⟩
  · have hlt := waitLoopLen_lt flagW k hk hf
    unfold segRun
    repeat' split
    all_goals dsimp only
    all_goals omega
  · unfold segRun
    repeat' split
    all_goals rfl
  · unfold segRun
    repeat' split
    all_goals rfl

/-- Witness for claim C10: the flag is cleared three seconds into the wait
of a fully successful segment; the wait is cut short while the command
trace and the `True` return match the uninterrupted run. -/
theorem claim_C10_stop_mid_wait_still_transfers_witness :
    (segRun
        ⟨CallOutcome.ok ⟨0, []⟩, CallOutcome.ok ⟨0, []⟩, CallOutcome.ok ⟨0, []⟩,
          CallOutcome.ok ⟨0, []⟩, CallOutcome.ok ⟨0, []⟩,
          CallOutcome.ok ⟨0, "/sdcard/DCIM/Camera/v1.mp4\n".toList⟩,
          CallOutcome.ok ⟨0, []⟩, CallOutcome.ok ⟨0, []⟩⟩
        (fun t => decide (t < 3))).waitLen < 1740 ∧
    (segRun
        ⟨CallOutcome.ok ⟨0, []⟩, CallOutcome.ok ⟨0, []⟩, CallOutcome.ok ⟨0, []⟩,
          CallOutcome.ok ⟨0, []⟩, CallOutcome.ok ⟨0, []⟩,
          CallOutcome.ok ⟨0, "/sdcard/DCIM/Camera/v1.mp4\n".toList⟩,
          CallOutcome.ok ⟨0, []⟩, CallOutcome.ok ⟨0, []⟩⟩
        (fun t => decide (t < 3))).trace =
      (segRun
        ⟨CallOutcome.ok ⟨0, []⟩, CallOutcome.ok ⟨0, []⟩, CallOutcome.ok ⟨0, []⟩,
          CallOutcome.ok ⟨0, []⟩, CallOutcome.ok ⟨0, []⟩,
          CallOutcome.ok ⟨0, "/sdcard/DCIM/Camera/v1.mp4\n".toList⟩,
          CallOutcome.ok ⟨0, []⟩, CallOutcome.ok ⟨0, []⟩⟩
        (fun _ => true)).trace ∧
    (segRun
        ⟨CallOutcome.ok ⟨0, []⟩, CallOutcome.ok ⟨0, []⟩, CallOutcome.ok ⟨0, []⟩,
          CallOutcome.ok ⟨0, []⟩, CallOutcome.ok ⟨0, []⟩,
          CallOutcome.ok ⟨0, "/sdcard/DCIM/Camera/v1.mp4\n".toList⟩,
          CallOutcome.ok ⟨0, []⟩, CallOutcome.ok ⟨0, []⟩⟩
        (fun t => decide (t < 3))).ret =
      (segRun
        ⟨CallOutcome.ok ⟨0, []⟩, CallOutcome.ok ⟨0, []⟩, CallOutcome.ok ⟨0, []⟩,
          CallOutcome.ok ⟨0, []⟩, CallOutcome.ok ⟨0, []⟩,
          CallOutcome.ok ⟨0, "/sdcard/DCIM/Camera/v1.mp4\n".toList⟩,
          CallOutcome.ok ⟨0, []⟩, CallOutcome.ok ⟨0, []⟩⟩
        (fun _ => true)).ret :=
  claim_C10_stop_mid_wait_still_transfers
    ⟨CallOutcome.ok ⟨0, []⟩, CallOutcome.ok ⟨0, []⟩, CallOutcome.ok ⟨0, []⟩,
      CallOutcome.ok ⟨0, []⟩, CallOutcome.ok ⟨0, []⟩,
      CallOutcome.ok ⟨0, "/sdcard/DCIM/Camera/v1.mp4\n".toList⟩,
      CallOutcome.ok ⟨0, []⟩, CallOutcome.ok ⟨0, []⟩⟩
    (fun t => decide (t < 3)) 3 (by decide) (by decide)

end TheWay
